import Mathlib

/-!
Verification of the NIFTY 50 ARIMA analyzer (`src/app.py`) against its
design specification.

Shallow embedding conventions:
* Timestamps are `Nat` (days since an epoch); `datetime.timedelta(days=i)`
  becomes `+ i`.
* Prices are `Int`; the statsmodels ARIMA fit-and-forecast call
  (`ARIMA(close, order).fit().forecast(steps)`) is an external collaborator
  and is modelled as a function parameter
  `fit : List Int → Nat × Nat × Nat → Except String (List Int)`
  (the series and the `(p,d,q)` order are the only data the call site passes).
* `fig.to_image` (plotly rasterization, also external) is modelled as an
  `Except String (List Nat)` outcome supplied to the PDF builder.
* Streamlit UI calls are modelled as an ordered list of emitted `Event`s;
  reportlab canvas calls are modelled as an ordered list of `PdfOp`s.
* `strftime` and the `:,.2f` money formatter are abstracted by injective
  `toString`-based stand-ins (`formatDate`, `formatPrice`); no claim depends
  on the rendered digits, only on which cells are emitted and where.
-/

/-- One row of the fetched price table; the core consumes `Date` and `Close`
(`df['Date']`, `df['Close']` in `app.py`). -/
structure Row where
  date : Nat
  close : Int
deriving DecidableEq, Repr

/-- One row of the forecast table built at `app.py` lines 135-138. -/
structure ForecastRow where
  date : Nat
  predictedPrice : Int
deriving DecidableEq, Repr

/-- One plotly trace (`go.Scatter(x=..., y=..., name=...)`). -/
structure Trace where
  name : String
  xs : List Nat
  ys : List Int
deriving DecidableEq, Repr

/-- Drawing operations issued on the reportlab canvas in `create_pdf`. -/
inductive PdfOp where
  | text (x y : Int) (s : String)
  | image (x y w h : Int)
  | line (x1 y1 x2 y2 : Int)
  | newPage
deriving DecidableEq, Repr

/-- Observable UI effects of one run of the main script body. -/
inductive Event where
  | plotChart (traces : List Trace)
  | subheader (s : String)
  | fitCall (close : List Int) (order : Nat × Nat × Nat)
  | showTable (rows : List ForecastRow)
  | downloadButton (pdf : List PdfOp)
  | errorMsg (s : String)
deriving DecidableEq, Repr

/-- Stand-in for `row['Date'].strftime('%Y-%m-%d')` (`app.py` line 85). -/
def formatDate (d : Nat) : String := toString d

/-- Stand-in for the `:,.2f` money format (`app.py` lines 61 and 86). -/
def formatPrice (v : Int) : String := toString v

/-- `forecast_steps = 15` (`app.py` line 127). -/
def forecastSteps : Nat := 15

/-- `future_dates = [last_date + datetime.timedelta(days=i) for i in
range(1, forecast_steps + 1)]` (`app.py` line 132). -/
def futureDates (lastDate : Nat) : List Nat :=
  (List.range forecastSteps).map (fun i => lastDate + (i + 1))

/-- `df['Date'].max()` (`app.py` line 131). -/
def lastDate (df : List Row) : Nat :=
  (df.map (·.date)).foldl max 0

/-- `forecast_df = pd.DataFrame({'Date': future_dates, 'Predicted Price':
forecast})` (`app.py` lines 135-138); statsmodels guarantees the forecast
vector has exactly `steps` entries, so the zip is lossless there. -/
def mkForecastDf (last : Nat) (forecast : List Int) : List ForecastRow :=
  List.zipWith (fun d v => ⟨d, v⟩) (futureDates last) forecast

/-- The chart built at `app.py` lines 107-108: a figure holding the single
historical `Actual Price` trace and nothing else. -/
def buildChart (df : List Row) : List Trace :=
  [⟨"Actual Price", df.map (·.date), df.map (·.close)⟩]

/-- The `for index, row in forecast_df.iterrows()` loop of `create_pdf`
(`app.py` lines 81-87): draw a date cell at x=120 and a price cell at x=250,
step the cursor down by 15, and when the cursor has fallen below 50 start a
new page and reset the cursor to 750 before drawing. -/
def drawRows (y : Int) (rows : List ForecastRow) : List PdfOp :=
  match rows with
  | [] => []
  | r :: rs =>
    if y < 50 then
      PdfOp.newPage :: PdfOp.text 120 750 (formatDate r.date) ::
        PdfOp.text 250 750 (formatPrice r.predictedPrice) :: drawRows (750 - 15) rs
    else
      PdfOp.text 120 y (formatDate r.date) ::
        PdfOp.text 250 y (formatPrice r.predictedPrice) :: drawRows (y - 15) rs

/-- `create_pdf` (`app.py` lines 52-92): header block, chart image with a
textual fallback when rasterization fails, table header at y=330 with a rule
at y=325, then the row loop starting at y=310, and a final `showPage`. -/
def create_pdf (df : List Row) (tickerName modelName : String)
    (forecast_df : List ForecastRow) (figImage : Except String (List Nat)) :
    List PdfOp :=
  [PdfOp.text 100 750 ("Financial Analysis Report: " ++ tickerName),
   PdfOp.text 100 730 ("Model Used: " ++ modelName),
   PdfOp.text 100 715 ("Latest Closing Price: ₹" ++
      formatPrice ((df.map (·.close)).getLastD 0))]
  ++ (match figImage with
      | Except.ok _ => [PdfOp.image 50 380 500 250]
      | Except.error _ => [PdfOp.text 100 450 "Chart could not be rendered in PDF."])
  ++ [PdfOp.text 100 350 "15-Day Forecast Table",
      PdfOp.text 120 330 "Date",
      PdfOp.text 250 330 "Predicted Price (₹)",
      PdfOp.line 100 325 500 325]
  ++ drawRows 310 forecast_df
  ++ [PdfOp.newPage]

/-- The forecast-and-report section (`app.py` lines 123-154): the ARIMA
constructor and `fit` are invoked unconditionally on `df['Close']`; on
success the forecast table is shown and, if the report button was clicked,
the PDF is built and offered; any exception is caught by the generic
handler and shown as `st.error("Model Error: ...")`. -/
def forecastBlock (df : List Row) (selectedName modelChoice : String)
    (order : Nat × Nat × Nat)
    (fit : List Int → Nat × Nat × Nat → Except String (List Int))
    (clicked : Bool) (raster : Except String (List Nat)) : List Event :=
  let close := df.map (·.close)
  Event.fitCall close order ::
    match fit close order with
    | Except.error e => [Event.errorMsg ("Model Error: " ++ e)]
    | Except.ok forecast =>
      let fdf := mkForecastDf (lastDate df) forecast
      Event.showTable fdf ::
        (if clicked then
          [Event.downloadButton (create_pdf df selectedName modelChoice fdf raster)]
        else [])

/-- The main script body (`app.py` lines 105-157): on a non-empty frame,
plot the historical chart, announce the forecast section, and run the
forecast block; on an empty frame, report the retrieval failure and do
nothing else. -/
def runApp (df : List Row) (selectedName modelChoice : String)
    (order : Nat × Nat × Nat)
    (fit : List Int → Nat × Nat × Nat → Except String (List Int))
    (clicked : Bool) (raster : Except String (List Nat)) : List Event :=
  if df.isEmpty then
    [Event.errorMsg "Failed to retrieve data."]
  else
    Event.plotChart (buildChart df) ::
      Event.subheader ("15-Day Forecast Results (" ++ modelChoice ++ ")") ::
        forecastBlock df selectedName modelChoice order fit clicked raster

/-- `period = st.sidebar.selectbox("History Period", options=["6mo", "1y",
"2y"], index=1)` (`app.py` line 44). -/
def periodOptions : List String := ["6mo", "1y", "2y"]

/-- A pandas frame as `get_live_data` sees it: the name of its index, whether
its columns form a `pd.MultiIndex`, and the column labels (a singleton list
for a flat label, the level tuple for a multi-level label). -/
structure Frame where
  indexName : String
  isMultiCol : Bool
  columns : List (List String)
deriving DecidableEq, Repr

/-- `data.reset_index()` (`app.py` line 98): the index becomes the leading
column; under MultiIndex columns pandas pads the new label's remaining
levels with the empty string. -/
def resetIndex (f : Frame) : Frame :=
  { f with columns :=
      (if f.isMultiCol then [f.indexName, ""] else [f.indexName]) :: f.columns }

/-- `get_live_data` (`app.py` lines 96-101): reset the index, then, when the
columns are a MultiIndex, replace every label by its first element
(`data.columns = [col[0] for col in data.columns]`). -/
def get_live_data (downloaded : Frame) : Frame :=
  let data := resetIndex downloaded
  if data.isMultiCol then
    { data with isMultiCol := false,
                columns := data.columns.map (fun col => [col.headD ""]) }
  else data

/-- The date cells of a rendered document: the strings of every text op drawn
at x=120 (the table's date column; the only other x=120 text is the `Date`
column header). -/
def dateCellTexts (ops : List PdfOp) : List String :=
  ops.filterMap fun op =>
    match op with
    | PdfOp.text x _ s => if x = 120 then some s else none
    | _ => none

/-- The forecast tables shown on screen during a run (`st.table` payloads). -/
def shownTables (events : List Event) : List (List ForecastRow) :=
  events.filterMap fun ev =>
    match ev with
    | Event.showTable rows => some rows
    | _ => none

/-- Does an event display the chart (`st.plotly_chart`)? -/
def Event.isChart : Event → Bool
  | Event.plotChart _ => true
  | _ => false

/-- Does an event invoke the external ARIMA fitter? -/
def Event.isFitCall : Event → Bool
  | Event.fitCall _ _ => true
  | _ => false

/-- Does an event offer the assembled PDF report for download
(`st.download_button`)? -/
def Event.isReportOffer : Event → Bool
  | Event.downloadButton _ => true
  | _ => false

/-- A concrete external fitter that always converges, yielding a fixed
15-entry forecast; used to instantiate theorems at concrete inputs. -/
def constFit : List Int → Nat × Nat × Nat → Except String (List Int) :=
  fun _ _ =>
    Except.ok [100, 101, 102, 103, 104, 105, 106, 107, 108, 109, 110, 111, 112, 113, 114]

/-- A concrete external fitter that always fails, as statsmodels does on
non-convergence; used to instantiate theorems at concrete inputs. -/
def failFit : List Int → Nat × Nat × Nat → Except String (List Int) :=
  fun _ _ => Except.error "ARIMA fit did not converge"

/-! ## Helper lemmas -/

lemma dateCellTexts_append (a b : List PdfOp) :
    dateCellTexts (a ++ b) = dateCellTexts a ++ dateCellTexts b := by
  simp [dateCellTexts, List.filterMap_append]

lemma dateCellTexts_drawRows (rows : List ForecastRow) :
    ∀ y : Int, dateCellTexts (drawRows y rows) = rows.map (fun r => formatDate r.date) := by
  induction rows with
  | nil => intro y; simp [drawRows, dateCellTexts]
  | cons r rs ih =>
    intro y
    by_cases h : y < 50 <;> simp [drawRows, h, dateCellTexts, List.filterMap_cons] <;>
      simpa [dateCellTexts] using ih _

lemma dateCellTexts_create_pdf (df : List Row) (n m : String)
    (fdf : List ForecastRow) (img : Except String (List Nat)) :
    dateCellTexts (create_pdf df n m fdf img) =
      "Date" :: fdf.map (fun r => formatDate r.date) := by
  cases img <;>
    (simp [create_pdf, dateCellTexts_append, dateCellTexts, List.filterMap_cons]
     exact dateCellTexts_drawRows fdf 310)

lemma map_date_zipWith (ds : List Nat) :
    ∀ vs : List Int, ds.length ≤ vs.length →
      (List.zipWith (fun d v => (⟨d, v⟩ : ForecastRow)) ds vs).map (·.date) = ds := by
  induction ds with
  | nil => intro vs _; simp
  | cons d ds ih =>
    intro vs h
    cases vs with
    | nil => simp at h
    | cons v vs => simpa using ih vs (by simpa using h)

lemma length_futureDates (l : Nat) : (futureDates l).length = forecastSteps := by
  simp [futureDates]

lemma map_date_mkForecastDf (l : Nat) (f : List Int) (h : f.length = forecastSteps) :
    (mkForecastDf l f).map (·.date) = futureDates l := by
  exact map_date_zipWith (futureDates l) f (by simp [length_futureDates, h])

/-! ## Claim theorems -/

/-- C3: for every list of table rows passed to the report assembler, the
rendered document contains every row's date cell, in order, after the column
header — table emission never truncates — and whenever the vertical cursor
has fallen below the minimum margin of 50, the row loop starts a new page and
resets the cursor to the top margin of 750 before continuing. -/
theorem pdf_table_rows_complete (df : List Row) (n m : String)
    (fdf : List ForecastRow) (img : Except String (List Nat)) :
    dateCellTexts (create_pdf df n m fdf img) =
      "Date" :: fdf.map (fun r => formatDate r.date) ∧
    (dateCellTexts (create_pdf df n m fdf img)).length = fdf.length + 1 ∧
    ∀ (y : Int) (r : ForecastRow) (rs : List ForecastRow), y < 50 →
      drawRows y (r :: rs) =
        PdfOp.newPage :: PdfOp.text 120 750 (formatDate r.date) ::
          PdfOp.text 250 750 (formatPrice r.predictedPrice) :: drawRows (750 - 15) rs := by
  refine ⟨dateCellTexts_create_pdf df n m fdf img, ?_, ?_⟩
  · rw [dateCellTexts_create_pdf]
    simp
  · intro y r rs h
    simp [drawRows, h]

theorem pdf_table_rows_complete_witness :
    (dateCellTexts (create_pdf [⟨0, 10⟩] "T" "M" [⟨1, 11⟩, ⟨2, 12⟩] (Except.error "x")) =
      "Date" :: ([⟨1, 11⟩, ⟨2, 12⟩] : List ForecastRow).map (fun r => formatDate r.date)) ∧
    ((40 : Int) < 50 ∧
      drawRows 40 [⟨3, 13⟩] =
        PdfOp.newPage :: PdfOp.text 120 750 (formatDate 3) ::
          PdfOp.text 250 750 (formatPrice 13) :: drawRows (750 - 15) []) :=
  ⟨(pdf_table_rows_complete [⟨0, 10⟩] "T" "M" [⟨1, 11⟩, ⟨2, 12⟩] (Except.error "x")).1,
    by decide,
    (pdf_table_rows_complete [⟨0, 10⟩] "T" "M" [⟨1, 11⟩, ⟨2, 12⟩]
      (Except.error "x")).2.2 40 ⟨3, 13⟩ [] (by decide)⟩

/-- C6: when rasterizing the chart fails, `create_pdf` still produces the
document: it contains the textual placeholder in place of the chart image,
the full forecast table is still emitted, and the output is a non-empty
document. -/
theorem raster_failure_placeholder_report_produced (df : List Row) (n m : String)
    (fdf : List ForecastRow) (e : String) :
    PdfOp.text 100 450 "Chart could not be rendered in PDF." ∈
      create_pdf df n m fdf (Except.error e) ∧
    dateCellTexts (create_pdf df n m fdf (Except.error e)) =
      "Date" :: fdf.map (fun r => formatDate r.date) ∧
    create_pdf df n m fdf (Except.error e) ≠ [] := by
  refine ⟨?_, dateCellTexts_create_pdf df n m fdf (Except.error e), ?_⟩ <;>
    simp [create_pdf]

/-- C8 counterexample: `5y` is not among the period options the program
offers (`app.py` line 44 lists only `6mo`, `1y`, `2y`). -/
theorem period_5y_not_offered_cex : "5y" ∉ periodOptions := by decide

/-- C8 amended: the history-period options offered to the live data provider
are exactly `6mo`, `1y`, `2y`; each of these is accepted, and `5y` is not
offered. -/
theorem period_options_enumeration :
    periodOptions = ["6mo", "1y", "2y"] ∧
    "6mo" ∈ periodOptions ∧ "1y" ∈ periodOptions ∧ "2y" ∈ periodOptions ∧
    "5y" ∉ periodOptions := by
  refine ⟨rfl, by decide, by decide, by decide, by decide⟩

/-- C10: on an empty fetched table, the run emits exactly the retrieval
failure message: no chart is plotted, the fitter is never invoked, no
forecast table is shown, and no report is offered. -/
theorem empty_data_halts_pipeline (n m : String) (order : Nat × Nat × Nat)
    (fit : List Int → Nat × Nat × Nat → Except String (List Int))
    (clicked : Bool) (raster : Except String (List Nat)) :
    runApp [] n m order fit clicked raster =
      [Event.errorMsg "Failed to retrieve data."] ∧
    (runApp [] n m order fit clicked raster).countP Event.isChart = 0 ∧
    (runApp [] n m order fit clicked raster).countP Event.isFitCall = 0 ∧
    (runApp [] n m order fit clicked raster).countP Event.isReportOffer = 0 ∧
    shownTables (runApp [] n m order fit clicked raster) = [] := by
  refine ⟨rfl, ?_, ?_, ?_, ?_⟩ <;> rfl

/-- C1: whenever the external fit succeeds (with its contractual 15-entry
forecast vector), the forecast stage shows a table with exactly
`forecastSteps = 15` rows whose timestamps are strictly increasing and equal
to the last historical date plus 1, 2, ..., 15 days. -/
theorem forecast_result_horizon_dates (df : List Row) (n m : String)
    (order : Nat × Nat × Nat)
    (fit : List Int → Nat × Nat × Nat → Except String (List Int))
    (clicked : Bool) (raster : Except String (List Nat)) (f : List Int)
    (hok : fit (df.map (·.close)) order = Except.ok f)
    (hlen : f.length = forecastSteps) :
    Event.showTable (mkForecastDf (lastDate df) f) ∈
      forecastBlock df n m order fit clicked raster ∧
    (mkForecastDf (lastDate df) f).length = forecastSteps ∧
    (mkForecastDf (lastDate df) f).map (·.date) =
      (List.range forecastSteps).map (fun i => lastDate df + (i + 1)) ∧
    ((mkForecastDf (lastDate df) f).map (·.date)).Pairwise (· < ·) := by
  have hmap : (mkForecastDf (lastDate df) f).map (·.date) = futureDates (lastDate df) :=
    map_date_mkForecastDf _ _ hlen
  refine ⟨?_, ?_, ?_, ?_⟩
  · simp [forecastBlock, hok]
  · simp [mkForecastDf, List.length_zipWith, length_futureDates, hlen]
  · rw [hmap]; rfl
  · rw [hmap, futureDates]
    exact (List.pairwise_lt_range forecastSteps).map _ (fun a b h => by omega)

theorem forecast_result_horizon_dates_witness :
    constFit (([⟨5, 9⟩] : List Row).map (·.close)) (1, 1, 1) =
      Except.ok [100, 101, 102, 103, 104, 105, 106, 107, 108, 109, 110, 111, 112, 113, 114] ∧
    ([100, 101, 102, 103, 104, 105, 106, 107, 108, 109, 110, 111, 112, 113, 114] :
      List Int).length = forecastSteps ∧
    Event.showTable (mkForecastDf (lastDate [⟨5, 9⟩])
        [100, 101, 102, 103, 104, 105, 106, 107, 108, 109, 110, 111, 112, 113, 114]) ∈
      forecastBlock [⟨5, 9⟩] "T" "M" (1, 1, 1) constFit false (Except.ok []) :=
  ⟨rfl, rfl,
    (forecast_result_horizon_dates [⟨5, 9⟩] "T" "M" (1, 1, 1) constFit false
      (Except.ok []) _ rfl rfl).1⟩

/-- C7: the forecast stage adds no nondeterminism of its own — against the
same external fitter (a function of the series and order only, the sole data
the call site passes), two runs on the same series with the same order show
the same forecast table, whatever the other UI inputs are. -/
theorem forecast_deterministic
    (fit : List Int → Nat × Nat × Nat → Except String (List Int))
    (dfa dfb : List Row) (oa ob : Nat × Nat × Nat)
    (na ma nb mb : String) (ca cb : Bool) (ra rb : Except String (List Nat))
    (hdf : dfa = dfb) (ho : oa = ob) :
    shownTables (forecastBlock dfa na ma oa fit ca ra) =
      shownTables (forecastBlock dfb nb mb ob fit cb rb) := by
  subst hdf; subst ho
  unfold forecastBlock
  cases h : fit (dfa.map (·.close)) oa with
  | error e => simp [shownTables, h]
  | ok fc => cases ca <;> cases cb <;> simp [shownTables, h]

theorem forecast_deterministic_witness :
    ([⟨5, 9⟩] : List Row) = [⟨5, 9⟩] ∧ ((1, 1, 1) : Nat × Nat × Nat) = (1, 1, 1) ∧
    shownTables (forecastBlock [⟨5, 9⟩] "A" "M1" (1, 1, 1) constFit true (Except.ok [])) =
      shownTables (forecastBlock [⟨5, 9⟩] "B" "M2" (1, 1, 1) constFit false
        (Except.error "x")) :=
  ⟨rfl, rfl,
    forecast_deterministic constFit [⟨5, 9⟩] [⟨5, 9⟩] (1, 1, 1) (1, 1, 1)
      "A" "M1" "B" "M2" true false (Except.ok []) (Except.error "x") rfl rfl⟩

/-- C9: for every well-formed downloaded frame (flat pandas labels are
scalars), `get_live_data` returns a frame whose column labels form a single
flat level, whose leading column is the materialized date index, and, when
the download had multi-level labels, each label is replaced by its first
element. -/
theorem get_live_data_flat_columns (f : Frame)
    (hwf : f.isMultiCol = false → ∀ c ∈ f.columns, c.length = 1) :
    (get_live_data f).isMultiCol = false ∧
    (∀ c ∈ (get_live_data f).columns, c.length = 1) ∧
    (get_live_data f).columns.head? = some [f.indexName] ∧
    (f.isMultiCol = true →
      (get_live_data f).columns =
        [f.indexName] :: f.columns.map (fun col => [col.headD ""])) := by
  cases hm : f.isMultiCol with
  | false =>
    refine ⟨?_, ?_, ?_, ?_⟩
    · simp [get_live_data, resetIndex, hm]
    · intro c hc
      simp [get_live_data, resetIndex, hm] at hc
      rcases hc with h | h
      · simp [h]
      · exact hwf hm c h
    · simp [get_live_data, resetIndex, hm]
    · intro h; simp [hm] at h
  | true =>
    refine ⟨?_, ?_, ?_, ?_⟩
    · simp [get_live_data, resetIndex, hm]
    · intro c hc
      simp [get_live_data, resetIndex, hm] at hc
      rcases hc with h | ⟨a, ha, h⟩
      · subst h; simp
      · subst h; simp
    · simp [get_live_data, resetIndex, hm]
    · intro _
      simp [get_live_data, resetIndex, hm]

theorem get_live_data_flat_columns_witness :
    ((({ indexName := "Date", isMultiCol := false, columns := [["Close"]] } :
        Frame).isMultiCol = false →
      ∀ c ∈ ({ indexName := "Date", isMultiCol := false, columns := [["Close"]] } :
        Frame).columns, c.length = 1)) ∧
    (get_live_data
        { indexName := "Date", isMultiCol := false, columns := [["Close"]] }).isMultiCol
      = false ∧
    (get_live_data
        { indexName := "Date", isMultiCol := false, columns := [["Close"]] }).columns.head?
      = some ["Date"] :=
  ⟨by decide,
    (get_live_data_flat_columns _ (by decide)).1,
    (get_live_data_flat_columns
      { indexName := "Date", isMultiCol := false, columns := [["Close"]] }
      (by decide)).2.2.1⟩

/-- C4 counterexample: a 2-observation series with order (2,1,2) is shorter
than p+d+q+1 = 6 observations, yet the forecast stage's very first action is
to invoke the external model fitter — there is no fail-fast length pre-check
and no distinct `InsufficientData` outcome. -/
theorem short_series_still_calls_fitter_cex :
    ([⟨0, 100⟩, ⟨1, 101⟩] : List Row).length < 2 + 1 + 2 + 1 ∧
    (forecastBlock [⟨0, 100⟩, ⟨1, 101⟩] "T" "M" (2, 1, 2) failFit false
        (Except.ok [])).head? =
      some (Event.fitCall [100, 101] (2, 1, 2)) :=
  ⟨by decide, rfl⟩

/-- C4 amended: the engine performs no series-length pre-check: for every
series and every order (non-negative triples included) the stage's first
event is the invocation of the external fitter, and when the fit fails for
any reason — non-convergence and too-short series alike — the stage ends
gracefully with the generic `Model Error` message rather than crashing. -/
theorem fitter_always_invoked_generic_error (df : List Row) (n m : String)
    (order : Nat × Nat × Nat)
    (fit : List Int → Nat × Nat × Nat → Except String (List Int))
    (clicked : Bool) (raster : Except String (List Nat)) :
    (forecastBlock df n m order fit clicked raster).head? =
      some (Event.fitCall (df.map (·.close)) order) ∧
    ∀ e, fit (df.map (·.close)) order = Except.error e →
      forecastBlock df n m order fit clicked raster =
        [Event.fitCall (df.map (·.close)) order,
         Event.errorMsg ("Model Error: " ++ e)] := by
  constructor
  · rfl
  · intro e he
    simp [forecastBlock, he]

theorem fitter_always_invoked_generic_error_witness :
    (forecastBlock [⟨0, 100⟩] "T" "M" (0, 0, 0) failFit false (Except.ok [])).head? =
      some (Event.fitCall [100] (0, 0, 0)) ∧
    failFit [100] (0, 0, 0) = Except.error "ARIMA fit did not converge" ∧
    forecastBlock [⟨0, 100⟩] "T" "M" (0, 0, 0) failFit false (Except.ok []) =
      [Event.fitCall [100] (0, 0, 0),
       Event.errorMsg ("Model Error: " ++ "ARIMA fit did not converge")] :=
  ⟨(fitter_always_invoked_generic_error [⟨0, 100⟩] "T" "M" (0, 0, 0) failFit false
      (Except.ok [])).1,
    rfl,
    (fitter_always_invoked_generic_error [⟨0, 100⟩] "T" "M" (0, 0, 0) failFit false
      (Except.ok [])).2 "ARIMA fit did not converge" rfl⟩

/-- C2 counterexample: a run on a non-empty series whose fit fails, with the
report button pressed: the chart is shown and the failure surfaced as an
error message, but the run contains no download offer at all — the report
cannot be generated without the forecast, contrary to the claim. -/
theorem report_skipped_on_fit_failure_cex :
    runApp [⟨0, 100⟩, ⟨1, 101⟩] "T" "M" (1, 1, 1) failFit true (Except.ok []) =
      [Event.plotChart (buildChart [⟨0, 100⟩, ⟨1, 101⟩]),
       Event.subheader "15-Day Forecast Results (M)",
       Event.fitCall [100, 101] (1, 1, 1),
       Event.errorMsg ("Model Error: " ++ "ARIMA fit did not converge")] ∧
    (runApp [⟨0, 100⟩, ⟨1, 101⟩] "T" "M" (1, 1, 1) failFit true
        (Except.ok [])).countP Event.isReportOffer = 0 :=
  ⟨rfl, rfl⟩

/-- C2 amended: when the fit fails on a non-empty series, the chart is still
shown and the failure is surfaced (as an error message, via the generic
handler), but the rest of the forecast section is skipped entirely: no
forecast table is shown and no report can be generated even with the button
pressed, because the report path lies inside the same exception scope after
the forecast. -/
theorem chart_persists_report_skipped_on_fit_failure (df : List Row)
    (n m : String) (order : Nat × Nat × Nat)
    (fit : List Int → Nat × Nat × Nat → Except String (List Int))
    (clicked : Bool) (raster : Except String (List Nat)) (e : String)
    (hne : df.isEmpty = false)
    (herr : fit (df.map (·.close)) order = Except.error e) :
    runApp df n m order fit clicked raster =
      [Event.plotChart (buildChart df),
       Event.subheader ("15-Day Forecast Results (" ++ m ++ ")"),
       Event.fitCall (df.map (·.close)) order,
       Event.errorMsg ("Model Error: " ++ e)] ∧
    (runApp df n m order fit clicked raster).countP Event.isChart = 1 ∧
    (runApp df n m order fit clicked raster).countP Event.isReportOffer = 0 := by
  have h1 : runApp df n m order fit clicked raster =
      [Event.plotChart (buildChart df),
       Event.subheader ("15-Day Forecast Results (" ++ m ++ ")"),
       Event.fitCall (df.map (·.close)) order,
       Event.errorMsg ("Model Error: " ++ e)] := by
    simp [runApp, hne, forecastBlock, herr]
  refine ⟨h1, ?_, ?_⟩ <;> rw [h1] <;> rfl

theorem chart_persists_report_skipped_witness :
    (([⟨0, 100⟩] : List Row).isEmpty = false) ∧
    failFit (([⟨0, 100⟩] : List Row).map (·.close)) (1, 1, 1) =
      Except.error "ARIMA fit did not converge" ∧
    (runApp [⟨0, 100⟩] "T" "M" (1, 1, 1) failFit true (Except.ok [])).countP
      Event.isChart = 1 :=
  ⟨rfl, rfl,
    (chart_persists_report_skipped_on_fit_failure [⟨0, 100⟩] "T" "M" (1, 1, 1)
      failFit true (Except.ok []) "ARIMA fit did not converge" rfl rfl).2.1⟩

/-- C5 counterexample: with last historical point (101, 52), the forecast's
first point is (102, 53): its timestamp is the last date plus one, not the
last date — it does not equal the last historical pair — and the chart as
built contains no forecast trace at all, only the `Actual Price` line. -/
theorem forecast_overlay_continuity_cex :
    lastDate [⟨100, 50⟩, ⟨101, 52⟩] = 101 ∧
    (mkForecastDf (lastDate [⟨100, 50⟩, ⟨101, 52⟩]) [53]).head? =
      some ⟨102, 53⟩ ∧
    (102 : Nat) ≠ 101 ∧
    (buildChart [⟨100, 50⟩, ⟨101, 52⟩]).map (·.name) = ["Actual Price"] :=
  ⟨rfl, rfl, by decide, rfl⟩

/-- C5 amended: the chart holds exactly one trace — the historical
`Actual Price` line, with no forecast overlay — and the forecast's first
point carries the timestamp lastDate + 1, one calendar day after the last
historical point, so an overlay would start one day later rather than at the
last historical pair. -/
theorem single_trace_forecast_starts_next_day (df : List Row) (l : Nat)
    (v : Int) (vs : List Int) :
    (buildChart df).map (·.name) = ["Actual Price"] ∧
    (buildChart df).length = 1 ∧
    (mkForecastDf l (v :: vs)).head? = some ⟨l + 1, v⟩ :=
  ⟨rfl, rfl, rfl⟩
